import Mathlib

/-!
A shallow embedding of `src/openjd/sessions/_subprocess.py` (class
`LoggingSubprocess`) and proofs about it.

Modelling conventions:
* Machine/OS facts that the Python code consults (host OS, the invoking
  account from `getpass.getuser()`, what the OS does when a process is
  spawned, whether the child has exited, the child's merged output) are
  explicit parameters of the Lean definitions.
* Python exceptions are values of `PyError`; the exception message texts are
  not modelled (only which exception class is raised).
* Logging calls are recorded as structured `Event`s.  For log lines whose
  exact text matters to the spec (the forwarded child-output lines and the
  start announcement) the event carries the exact string; for the command
  announcements (`"Running command %s"` / `"Running: ..."`) the event carries
  the command vector itself rather than its `shlex`-formatted rendering.
* `run()` is embedded twice over the same state type: as the atomic-step
  machine `runStep` (Python statements of `run()` become atomic transitions,
  so that concurrent `notify()`/`terminate()` calls can be interleaved), and
  the bodies of `notify()`/`terminate()`/`__init__` as plain functions, since
  those execute without yielding interesting intermediate states for the
  properties at hand.
-/

namespace OpenJD

/-- Host operating system, as decided by `_os_checker.is_posix` /
`is_windows` (the code treats these as the two possible cases). -/
inductive OSName where
  | posix
  | windows
deriving DecidableEq, Repr

/-- `_session_user.SessionUser` and its two concrete variants
`PosixSessionUser` / `WindowsSessionUser`; only the account name is relevant
to `_subprocess.py`. -/
inductive SessionUser where
  | posixUser (user : String)
  | windowsUser (user : String)
deriving DecidableEq, Repr

/-- The account name carried by either variant (`user.user`). -/
def SessionUser.name : SessionUser → String
  | .posixUser u => u
  | .windowsUser u => u

/-- `isinstance(user, PosixSessionUser)`. -/
def SessionUser.isPosixUser : SessionUser → Bool
  | .posixUser _ => true
  | .windowsUser _ => false

/-- `isinstance(user, WindowsSessionUser)`. -/
def SessionUser.isWindowsUser : SessionUser → Bool
  | .posixUser _ => false
  | .windowsUser _ => true

/-- Ambient host facts consulted by the code: the OS
(`os.name == "posix"` / `is_windows()`) and the invoking account
(`getpass.getuser()`). -/
structure Host where
  os : OSName
  currentUser : String
deriving DecidableEq, Repr

/-- Python exception classes raised/handled by the code.  Message texts are
not modelled. -/
inductive PyError where
  | valueError
  | runtimeError
  | notImplementedError
  | osError
  | otherError
deriving DecidableEq, Repr

/-- The slice of a `subprocess.Popen` object that `LoggingSubprocess`
reads or writes: `pid` and `returncode`.  `returncode` is `none` until a
`poll()` or `wait()` observes the exited child and caches its status. -/
structure Popen where
  pid : Nat
  returncode : Option Int
deriving DecidableEq, Repr

/-- The mutable fields of a `LoggingSubprocess` instance (its `__init__`
assigns exactly these).  `callback` is modelled by whether one was supplied;
`has_started` is the `threading.Event` start-latch as a boolean. -/
structure State where
  args : List String
  encoding : String
  user : Option SessionUser
  hasCallback : Bool
  process : Option Popen
  start_failed : Bool
  has_started : Bool
deriving DecidableEq, Repr

/-- `LoggingSubprocess.__init__`: validates `args` and the `user` variant
against the host OS, raising `ValueError` (the spec's ConstructionError),
otherwise produces the freshly initialised instance state. -/
def initLS (host : Host) (args : List String) (encoding : String)
    (user : Option SessionUser) (hasCallback : Bool) : Except PyError State :=
  if args.length < 1 then
    .error .valueError
  else if user.isSome && host.os == .posix &&
      !(user.getD (.posixUser "")).isPosixUser then
    .error .valueError
  else if user.isSome && host.os == .windows &&
      !(user.getD (.posixUser "")).isWindowsUser then
    .error .valueError
  else
    .ok { args := args
          encoding := encoding
          user := user
          hasCallback := hasCallback
          process := none
          start_failed := false
          has_started := false }

/-- `LoggingSubprocess.pid` property. -/
def State.pidProp (s : State) : Option Nat :=
  match s.process with
  | some p => some p.pid
  | none => none

/-- `LoggingSubprocess.exit_code` property: returns the cached
`Popen.returncode` without polling. -/
def State.exit_code (s : State) : Option Int :=
  match s.process with
  | some p => p.returncode
  | none => none

/-- `LoggingSubprocess.is_running` property. -/
def State.is_running (s : State) : Bool :=
  match s.process with
  | some p => p.returncode == none
  | none => false

/-- `LoggingSubprocess.failed_to_start` property. -/
def State.failed_to_start (s : State) : Bool := s.start_failed

/-- `LoggingSubprocess.has_started` property (`Event.is_set`). -/
def State.hasStartedProp (s : State) : Bool := s.has_started

/-- The module constant `POSIX_SIGNAL_SUBPROC_SCRIPT` (a filesystem path
derived from the package location; the exact directory prefix is irrelevant
to every property proved here, so the package-relative tail is used). -/
def POSIX_SIGNAL_SUBPROC_SCRIPT : String :=
  "openjd/sessions/_scripts/_posix/_signal_subprocess.sh"

/-- `LOG_LINE_MAX_LENGTH = 64 * 1000`. -/
def LOG_LINE_MAX_LENGTH : Nat := 64 * 1000

/-- Python `str(b)` for a `bool`. -/
def pyStrBool : Bool → String
  | true => "True"
  | false => "False"

/-- The first phase of `_posix_signal_subprocess`: starting from
`cmd = []` and `signal_child = False`, when `self._user is not None` it
(a) extends `cmd` with the `sudo` elevation prefix if that user differs from
`getuser()`, and (b) sets `signal_child = True`.  Returns the resulting
`(cmd, signal_child)` pair. -/
def posixSignalCmdParts (user : Option SessionUser) (currentUser : String) :
    List String × Bool :=
  match user with
  | some u =>
    ((if u.name ≠ currentUser then ["sudo", "-u", u.name, "-i"] else []), true)
  | none => ([], false)

/-- The command vector built by `LoggingSubprocess._posix_signal_subprocess`
before it is handed to `subprocess.run`: the elevation prefix (possibly
empty) followed by the relay script path and its four positional
parameters. -/
def posixSignalCmd (user : Option SessionUser) (currentUser : String)
    (pid : Nat) (signal : String) (signal_subprocesses : Bool) : List String :=
  (posixSignalCmdParts user currentUser).1 ++
    [POSIX_SIGNAL_SUBPROC_SCRIPT, toString pid, signal,
      pyStrBool (posixSignalCmdParts user currentUser).2,
      pyStrBool signal_subprocesses]

/-- Statement vocabulary (not part of the embedding): the `sudo` elevation
prefix that `_posix_signal_subprocess` uses when a different user is
configured. -/
def sudoCmd (user : Option SessionUser) (currentUser : String) : List String :=
  match user with
  | some u => if u.name ≠ currentUser then ["sudo", "-u", u.name, "-i"] else []
  | none => []

/-- Structured record of the observable actions the code performs (log
calls, external process invocations, the completion callback). -/
inductive Event where
  /-- `self._logger.info("Running command %s", cmd_line_for_logger)`; carries
  the command vector (POSIX) resp. the original args (Windows) that the
  logged string is formatted from. -/
  | logRunningCommand (cmd : List String)
  /-- `self._logger.info(f"Process failed to start: {str(e)}")`. -/
  | logSpawnFailed
  /-- `self._logger.info(f"Command started as pid: {self._process.pid}")`;
  carries the exact logged string. -/
  | logStarted (line : String)
  /-- One forwarded child-output line, `self._logger.info(line)` in the read
  loop; carries the exact logged string. -/
  | logInfoLine (line : String)
  /-- `self._logger.info(f"Running: {shlex.join(cmd)}")` in
  `_posix_signal_subprocess`; carries the command vector. -/
  | logRunningRelay (cmd : List String)
  /-- `subprocess.run(cmd, ...)` of the POSIX signal relay. -/
  | relayRun (cmd : List String)
  /-- `self._logger.warning(...)` on a non-zero relay exit. -/
  | logRelayWarning (pid : Nat) (signal : String)
  /-- `self._logger.info(f"Start killing the process tree ...")` (Windows
  `terminate`). -/
  | logKillTreeStart (pid : Nat)
  /-- `kill_windows_process_tree(logger, pid, signal_subprocesses=...)`. -/
  | winKillTree (pid : Nat) (signal_subprocesses : Bool)
  /-- `self._callback()`. -/
  | callbackInvoked
deriving DecidableEq, Repr

/-- Whether an event is a signal dispatch / relay invocation (as opposed to
a pure logging or callback action). -/
def Event.isSignalDispatch : Event → Bool
  | .relayRun _ => true
  | .winKillTree _ _ => true
  | _ => false

/-- The event sequence of one `_posix_signal_subprocess(signal,
signal_subprocesses)` call on a process with pid `pid`: log the command,
run the relay, and log a warning if the relay exited non-zero.  The relay's
exit code `relayExit` is an environment input.  The call mutates no
instance state. -/
def posixSignalEvents (user : Option SessionUser) (currentUser : String)
    (pid : Nat) (signal : String) (signal_subprocesses : Bool)
    (relayExit : Int) : List Event :=
  let cmd := posixSignalCmd user currentUser pid signal signal_subprocesses
  [.logRunningRelay cmd, .relayRun cmd] ++
    (if relayExit ≠ 0 then [.logRelayWarning pid signal] else [])

/-- What the OS reports about the tracked child process at the instant a
`Popen.poll()` / `Popen.wait()` runs: whether it has exited, and with which
status. -/
structure ChildView where
  exited : Bool
  status : Int
deriving DecidableEq, Repr

/-- `Popen.poll()` state effect: caches the exit status into `returncode`
when the child has exited and it was not cached yet.  The value `poll()`
returns is the updated `returncode`. -/
def Popen.pollUpd (p : Popen) (v : ChildView) : Popen :=
  match p.returncode with
  | some _ => p
  | none => if v.exited then { p with returncode := some v.status } else p

/-- `LoggingSubprocess.notify()`: a no-op unless a process is tracked and
`poll()` reports it still running; then on POSIX dispatches the relay with
signal `"term"` and `signal_subprocesses=False`, and on other platforms
raises `NotImplementedError`.  Returns the updated instance state, the
events performed, and the exception raised, if any. -/
def notifyFn (host : Host) (s : State) (v : ChildView) (relayExit : Int) :
    State × List Event × Option PyError :=
  match s.process with
  | none => (s, [], none)
  | some p =>
    let p' := p.pollUpd v
    let s' := { s with process := some p' }
    if p'.returncode = none then
      if host.os = .posix then
        (s', posixSignalEvents s'.user host.currentUser p'.pid "term" false
          relayExit, none)
      else
        (s', [], some .notImplementedError)
    else
      (s', [], none)

/-- `LoggingSubprocess.terminate()`: a no-op unless a process is tracked and
`poll()` reports it still running; then on POSIX dispatches the relay with
signal `"kill"` and `signal_subprocesses=True`, and on Windows logs and
walks the process tree via `kill_windows_process_tree`. -/
def terminateFn (host : Host) (s : State) (v : ChildView) (relayExit : Int) :
    State × List Event × Option PyError :=
  match s.process with
  | none => (s, [], none)
  | some p =>
    let p' := p.pollUpd v
    let s' := { s with process := some p' }
    if p'.returncode = none then
      if host.os = .posix then
        (s', posixSignalEvents s'.user host.currentUser p'.pid "kill" true
          relayExit, none)
      else
        (s', [.logKillTreeStart p'.pid, .winKillTree p'.pid true], none)
    else
      (s', [], none)

/-!
### The output read loop

The merged stdout/stderr of the child is a text stream; `run()` reads it via
`stream.readline(LOG_LINE_MAX_LENGTH)`.  A Python text-mode `readline(size)`
returns the next characters up to and including the first newline, but at
most `size` characters; at end of stream it returns `""`.  The stream
content is modelled as the `List Char` of decoded characters still unread.
-/

/-- `stream.readline(cap)` on available data: splits off the next chunk
(up to and including the first newline, capped at `cap` characters) from
the rest. -/
def readlineList : List Char → Nat → List Char × List Char
  | cs, 0 => ([], cs)
  | [], _ + 1 => ([], [])
  | c :: cs, n + 1 =>
    if c = '\n' then ([c], cs)
    else
      let p := readlineList cs n
      (c :: p.1, p.2)

theorem readlineList_append (cs : List Char) (n : Nat) :
    (readlineList cs n).1 ++ (readlineList cs n).2 = cs := by
  induction cs generalizing n with
  | nil => cases n <;> simp [readlineList]
  | cons c cs ih =>
    cases n with
    | zero => simp [readlineList]
    | succ n =>
      simp only [readlineList]
      split
      · simp_all
      · simpa using ih n

theorem readlineList_fst_length_le (cs : List Char) (n : Nat) :
    (readlineList cs n).1.length ≤ n := by
  induction cs generalizing n with
  | nil => cases n <;> simp [readlineList]
  | cons c cs ih =>
    cases n with
    | zero => simp [readlineList]
    | succ n =>
      simp only [readlineList]
      split
      · simp
      · simpa using ih n

theorem readlineList_fst_ne_nil (c : Char) (cs : List Char) (n : Nat) :
    (readlineList (c :: cs) (n + 1)).1 ≠ [] := by
  simp only [readlineList]
  split <;> simp

theorem readlineList_snd_length_lt (c : Char) (cs : List Char) (n : Nat) :
    (readlineList (c :: cs) (n + 1)).2.length < (c :: cs).length := by
  have happ := readlineList_append (c :: cs) (n + 1)
  have hne := readlineList_fst_ne_nil c cs n
  have : (readlineList (c :: cs) (n + 1)).1.length +
      (readlineList (c :: cs) (n + 1)).2.length = (c :: cs).length := by
    rw [← List.length_append, happ]
  have hpos : 0 < (readlineList (c :: cs) (n + 1)).1.length :=
    List.length_pos.mpr hne
  omega

/-- `line.rstrip("\n\r")`: drop trailing newline and carriage-return
characters. -/
def rstripNL (cs : List Char) : List Char :=
  (cs.reverse.dropWhile (fun c => c = '\n' || c = '\r')).reverse

/-- The successive chunks `iter(_stream_readline_max_length, "")` yields
from an ended stream whose unread content is `cs` (each chunk is one
`readline(LOG_LINE_MAX_LENGTH)` result; the iteration ends at the `""`
sentinel, i.e. exactly when the content is exhausted). -/
def readChunks (cs : List Char) : List (List Char) :=
  match h : cs with
  | [] => []
  | c :: cs' =>
    have : (readlineList (c :: cs') LOG_LINE_MAX_LENGTH).2.length <
        (c :: cs').length := by
      have h64 : ∃ m, LOG_LINE_MAX_LENGTH = m + 1 := ⟨63999, rfl⟩
      obtain ⟨m, hm⟩ := h64
      rw [hm]
      exact readlineList_snd_length_lt c cs' m
    (readlineList (c :: cs') LOG_LINE_MAX_LENGTH).1 ::
      readChunks (readlineList (c :: cs') LOG_LINE_MAX_LENGTH).2
  termination_by cs.length

/-!
### Spawning and the `run()` machine
-/

/-- Modelled from the spec: the Windows spawn payload produced by
`encode_to_base64(generate_start_job_wrapper(args, user))` — a job-wrapper
script embedding the command and target identity, base64-encoded.  The two
generator functions live in `_powershell_generator.py`, which is not part of
the sources here; the payload is treated as an opaque string determined by
`(args, user)`, which is all any property below needs. -/
def windowsEncodedCommand (args : List String) (user : Option SessionUser) :
    String :=
  "base64<" ++ String.intercalate "\u0000" args ++ "|" ++
    (match user with | some u => u.name | none => "") ++ ">"

/-- The full command vector built inside `_start_subprocess` (the spec's
PrivilegeElevator): on POSIX an optional `sudo ... setsid -w` elevation
prefix followed by `args`; on Windows a `powershell.exe` invocation of the
encoded job wrapper. -/
def buildCommand (host : Host) (args : List String)
    (user : Option SessionUser) : List String :=
  if host.os = .posix then
    (match user with
      | some u =>
        if u.name ≠ host.currentUser then
          ["sudo", "-u", u.name, "-i", "setsid", "-w"]
        else []
      | none => []) ++ args
  else
    ["powershell.exe", "-ExecutionPolicy", "Unrestricted", "-EncodedCommand",
      windowsEncodedCommand args user]

/-- `cmd_line_for_logger`: the value interpolated into the
`"Running command %s"` log line (the joined full command on POSIX, the
original `args` via `list2cmdline` on Windows); carried unformatted. -/
def cmdForLogger (host : Host) (args : List String)
    (user : Option SessionUser) : List String :=
  if host.os = .posix then buildCommand host args user else args

/-- What the OS does when `run()` reaches the `Popen(...)` call — an
environment input.  `ok pid output status` means the process spawns with the
given pid and will produce `output` on its merged stream and exit with
`status`; `osError` means `Popen` raises `OSError` (caught by
`_start_subprocess`, which returns `None`); `otherExc` means a non-`OSError`
exception is raised inside `_start_subprocess`'s `try:` block (not caught —
it propagates out of `run()`). -/
inductive SpawnOutcome where
  | ok (pid : Nat) (output : List Char) (status : Int)
  | osError
  | otherExc
deriving DecidableEq, Repr

/-- The OS-level child process: its pid, the not-yet-read part of its merged
output stream, whether it has exited yet, and its (eventual) exit status.
All of the output is modelled as available to read from the moment of the
spawn; `exited` flips when the scheduler performs the `childExit` action. -/
structure Child where
  pid : Nat
  buf : List Char
  exited : Bool
  status : Int
deriving DecidableEq, Repr

/-- Program counter of the `run()` thread; each constructor is one atomic
statement of `LoggingSubprocess.run` (with `_start_subprocess` inlined at
`spawn`).  `raised e` is the terminal state of a `run()` that raised `e`. -/
inductive RunPC where
  /-- `if self._process is not None: raise RuntimeError(...)`. -/
  | checkReentry
  /-- `self._process = self._start_subprocess()`. -/
  | spawn
  /-- `self._has_started.set()`. -/
  | setLatch
  /-- `if self._process is None:` branch test. -/
  | checkFailed
  /-- `self._start_failed = True`. -/
  | setStartFailed
  /-- `if self._callback: self._callback()` then `return` (failure path). -/
  | failCallback
  /-- `self._logger.info(f"Command started as pid: ...")`. -/
  | logStart
  /-- one iteration of `for line in iter(_stream_readline_max_length, "")`. -/
  | readLoop
  /-- `self._process.wait()`. -/
  | waitChild
  /-- `if self._callback: self._callback()` (success path). -/
  | doneCallback
  /-- `run()` returned normally. -/
  | finished
  /-- `run()` raised. -/
  | raised (e : PyError)
deriving DecidableEq, Repr

/-- A configuration of the whole system: host facts, the instance state, the
OS child (if spawned), the environment's choice of spawn outcome and relay
exit code, the `run()` thread's program counter, and the trace of events
performed so far (by any thread). -/
structure Config where
  host : Host
  st : State
  child : Option Child
  spawnOutcome : SpawnOutcome
  relayExit : Int
  pc : RunPC
  events : List Event
deriving DecidableEq, Repr

/-- One atomic step of the thread executing `run()`.  Blocking operations
(`readline` with no data and no EOF, `wait` on a live child) leave the
configuration unchanged — the thread is stuck until the environment acts.
`finished` and `raised` are absorbing. -/
def runStep (c : Config) : Config :=
  match c.pc with
  | .checkReentry =>
    match c.st.process with
    | some _ => { c with pc := .raised .runtimeError }
    | none => { c with pc := .spawn }
  | .spawn =>
    match c.spawnOutcome with
    | .ok pid output status =>
      { c with
          st := { c.st with process := some { pid := pid, returncode := none } },
          child := some { pid := pid, buf := output, exited := false, status := status },
          events := c.events ++
            [.logRunningCommand (cmdForLogger c.host c.st.args c.st.user)],
          pc := .setLatch }
    | .osError =>
      { c with
          events := c.events ++
            [.logRunningCommand (cmdForLogger c.host c.st.args c.st.user),
              .logSpawnFailed],
          pc := .setLatch }
    | .otherExc => { c with pc := .raised .otherError }
  | .setLatch =>
    { c with st := { c.st with has_started := true }, pc := .checkFailed }
  | .checkFailed =>
    match c.st.process with
    | none => { c with pc := .setStartFailed }
    | some _ => { c with pc := .logStart }
  | .setStartFailed =>
    { c with st := { c.st with start_failed := true }, pc := .failCallback }
  | .failCallback =>
    { c with
        events := c.events ++
          (if c.st.hasCallback then [.callbackInvoked] else [])
        pc := .finished }
  | .logStart =>
    match c.st.process with
    | some p =>
      { c with
          events := c.events ++
            [.logStarted ("Command started as pid: " ++ toString p.pid)]
          pc := .readLoop }
    | none => c
  | .readLoop =>
    match c.child with
    | some ch =>
      match ch.buf with
      | [] =>
        if ch.exited then { c with pc := .waitChild } else c
      | b :: bs =>
        let p := readlineList (b :: bs) LOG_LINE_MAX_LENGTH
        { c with
            child := some { ch with buf := p.2 }
            events := c.events ++
              [.logInfoLine (String.mk (rstripNL p.1))]
            pc := .readLoop }
    | none => c
  | .waitChild =>
    match c.child, c.st.process with
    | some ch, some p =>
      if ch.exited then
        { c with
            st := { c.st with
              process := some { p with returncode := some ch.status } }
            pc := .doneCallback }
      else c
    | _, _ => c
  | .doneCallback =>
    { c with
        events := c.events ++
          (if c.st.hasCallback then [.callbackInvoked] else [])
        pc := .finished }
  | .finished => c
  | .raised _ => c

/-- The view `poll()` gets of the child at this instant. -/
def Config.childView (c : Config) : ChildView :=
  match c.child with
  | some ch => { exited := ch.exited, status := ch.status }
  | none => { exited := false, status := 0 }

/-- Scheduler actions: a step of the `run()` thread; a whole `notify()` or
`terminate()` call from another thread (these perform no blocking
operation, so running one between two `run()` steps realises an actual
interleaving of the Python program); or the OS event of the child exiting. -/
inductive Action where
  | runStep
  | notifyCall
  | terminateCall
  | childExit
deriving DecidableEq, Repr

/-- Apply one scheduler action to a configuration.  An exception raised by
`notify()` on a non-POSIX host surfaces in the calling thread, not in this
trace; the state/event effects recorded here are unaffected. -/
def doAction (a : Action) (c : Config) : Config :=
  match a with
  | .runStep => runStep c
  | .notifyCall =>
    let r := notifyFn c.host c.st c.childView c.relayExit
    { c with st := r.1, events := c.events ++ r.2.1 }
  | .terminateCall =>
    let r := terminateFn c.host c.st c.childView c.relayExit
    { c with st := r.1, events := c.events ++ r.2.1 }
  | .childExit =>
    match c.child with
    | some ch => { c with child := some { ch with exited := true } }
    | none => c

/-- Run a schedule (a finite interleaving) from a configuration. -/
def exec (sched : List Action) (c : Config) : Config :=
  sched.foldl (fun c a => doAction a c) c

/-- The configuration at the moment a thread calls `run()` on the instance
state `s`: the `run()` thread is at its first statement. -/
def startConfig (host : Host) (s : State) (outcome : SpawnOutcome)
    (relayExit : Int) : Config :=
  { host := host, st := s, child := none, spawnOutcome := outcome,
    relayExit := relayExit, pc := .checkReentry, events := [] }

/-- Statement vocabulary: the instance state `initLS` produces on success
with default encoding (used to build concrete scenarios in theorems). -/
def freshState (args : List String) (user : Option SessionUser)
    (hasCallback : Bool) : State :=
  { args := args, encoding := "utf-8", user := user,
    hasCallback := hasCallback, process := none, start_failed := false,
    has_started := false }

/-- The concrete interleaving exhibiting an early `exit_code` observation:
a POSIX handle runs `["prog"]` (child pid 7, merged output `"a\nb\n"`,
exit status 0); the `run()` thread executes up to and including the read
of the first line, the child then exits, and another thread calls
`notify()` while `"b\n"` is still unread. -/
def pollRaceConfig : Config :=
  exec [.runStep, .runStep, .runStep, .runStep, .runStep, .runStep,
      .childExit, .notifyCall]
    (startConfig ⟨.posix, "me"⟩ (freshState ["prog"] none false)
      (.ok 7 ['a', '\n', 'b', '\n'] 0) 0)

/-!
## Helper lemmas
-/

theorem LOG_LINE_MAX_LENGTH_succ : LOG_LINE_MAX_LENGTH = 63999 + 1 := rfl

theorem exec_cons (a : Action) (as : List Action) (c : Config) :
    exec (a :: as) c = exec as (doAction a c) := rfl

theorem exec_append (as bs : List Action) (c : Config) :
    exec (as ++ bs) c = exec bs (exec as c) := by
  simp [exec, List.foldl_append]

theorem runStep_raised (c : Config) (e : PyError) (h : c.pc = .raised e) :
    runStep c = c := by
  unfold runStep
  rw [h]

theorem exec_runSteps_raised (n : Nat) (c : Config) (e : PyError)
    (h : c.pc = .raised e) :
    exec (List.replicate n .runStep) c = c := by
  induction n with
  | zero => rfl
  | succ n ih =>
    rw [List.replicate_succ, exec_cons]
    show exec (List.replicate n .runStep) (runStep c) = c
    rw [runStep_raised c e h, ih]

theorem readChunks_nil : readChunks [] = [] := by
  rw [readChunks]

theorem readChunks_cons (b : Char) (bs : List Char) :
    readChunks (b :: bs) =
      (readlineList (b :: bs) LOG_LINE_MAX_LENGTH).1 ::
        readChunks (readlineList (b :: bs) LOG_LINE_MAX_LENGTH).2 := by
  rw [readChunks]

theorem readChunks_mem (cs : List Char) :
    ∀ l ∈ readChunks cs, l ≠ [] ∧ l.length ≤ LOG_LINE_MAX_LENGTH := by
  suffices h : ∀ (n : Nat) (cs : List Char), cs.length = n →
      ∀ l ∈ readChunks cs, l ≠ [] ∧ l.length ≤ LOG_LINE_MAX_LENGTH from
    h cs.length cs rfl
  intro n
  induction n using Nat.strong_induction_on with
  | _ n ih =>
    intro cs hn
    cases cs with
    | nil => rw [readChunks_nil]; intro l hl; cases hl
    | cons b bs =>
      rw [readChunks_cons]
      intro l hl
      rcases List.mem_cons.mp hl with hl | hl
      · subst hl
        refine ⟨?_, readlineList_fst_length_le _ _⟩
        rw [LOG_LINE_MAX_LENGTH_succ]
        exact readlineList_fst_ne_nil b bs 63999
      · have hlt : (readlineList (b :: bs) LOG_LINE_MAX_LENGTH).2.length <
            n := by
          rw [← hn, LOG_LINE_MAX_LENGTH_succ]
          exact readlineList_snd_length_lt b bs 63999
        exact ih _ hlt _ rfl l hl

theorem readChunks_join (cs : List Char) :
    (readChunks cs).foldr (· ++ ·) [] = cs := by
  suffices h : ∀ (n : Nat) (cs : List Char), cs.length = n →
      (readChunks cs).foldr (· ++ ·) [] = cs from h cs.length cs rfl
  intro n
  induction n using Nat.strong_induction_on with
  | _ n ih =>
    intro cs hn
    cases cs with
    | nil => rw [readChunks_nil]; rfl
    | cons b bs =>
      rw [readChunks_cons]
      have hlt : (readlineList (b :: bs) LOG_LINE_MAX_LENGTH).2.length <
          n := by
        rw [← hn, LOG_LINE_MAX_LENGTH_succ]
        exact readlineList_snd_length_lt b bs 63999
      have := ih _ hlt _ rfl
      simp only [List.foldr_cons, this]
      exact readlineList_append (b :: bs) LOG_LINE_MAX_LENGTH

/-- Symbolic execution of the read loop over an ended stream: one `runStep`
per chunk drains the buffer, forwarding `rstrip`ped chunks to the logger in
order, and touches nothing else. -/
theorem drainLoop (cs : List Char) (c : Config) (ch : Child)
    (hpc : c.pc = .readLoop) (hch : c.child = some ch) (hbuf : ch.buf = cs)
    (hex : ch.exited = true) :
    exec (List.replicate (readChunks cs).length .runStep) c =
      { c with
          child := some { ch with buf := [] },
          events := c.events ++ (readChunks cs).map
            (fun l => Event.logInfoLine (String.mk (rstripNL l))) } := by
  suffices h : ∀ (n : Nat) (cs : List Char) (c : Config) (ch : Child),
      cs.length = n → c.pc = .readLoop → c.child = some ch → ch.buf = cs →
      ch.exited = true →
      exec (List.replicate (readChunks cs).length .runStep) c =
        { c with
            child := some { ch with buf := [] },
            events := c.events ++ (readChunks cs).map
              (fun l => Event.logInfoLine (String.mk (rstripNL l))) } from
    h cs.length cs c ch rfl hpc hch hbuf hex
  intro n
  induction n using Nat.strong_induction_on with
  | _ n ih =>
    intro cs c ch hn hpc hch hbuf hex
    cases cs with
    | nil =>
      rw [readChunks_nil]
      show c = _
      have hch' : some { ch with buf := ([] : List Char) } = c.child := by
        rw [hch]
        cases ch
        simp_all
      cases c
      simp_all
    | cons b bs =>
      rw [readChunks_cons]
      simp only [List.length_cons, List.replicate_succ]
      rw [exec_cons]
      have hstep : doAction .runStep c =
          { c with
              child := some { ch with
                buf := (readlineList (b :: bs) LOG_LINE_MAX_LENGTH).2 },
              events := c.events ++ [Event.logInfoLine (String.mk (rstripNL
                (readlineList (b :: bs) LOG_LINE_MAX_LENGTH).1))],
              pc := .readLoop } := by
        show runStep c = _
        simp [runStep, hpc, hch, hbuf]
      rw [hstep]
      have hlt : (readlineList (b :: bs) LOG_LINE_MAX_LENGTH).2.length <
          n := by
        rw [← hn, LOG_LINE_MAX_LENGTH_succ]
        exact readlineList_snd_length_lt b bs 63999
      rw [ih _ hlt _ _
        { ch with buf := (readlineList (b :: bs) LOG_LINE_MAX_LENGTH).2 }
        rfl rfl rfl rfl hex]
      simp [hpc]

/-!
## The claims
-/

/-- C8: construction raises a `ValueError` (the spec's ConstructionError)
synchronously if and only if the argument vector is empty or a supplied
principal's variant does not match the host OS; on success no process state
is created (`process = none`, flags clear), so `run()` is never reached for
the failing inputs. -/
theorem C8_construction_error_iff (host : Host) (args : List String)
    (encoding : String) (user : Option SessionUser) (hasCallback : Bool) :
    (initLS host args encoding user hasCallback = .error .valueError ↔
      (args = [] ∨ ∃ u, user = some u ∧
        ((host.os = .posix ∧ u.isPosixUser = false) ∨
         (host.os = .windows ∧ u.isWindowsUser = false)))) ∧
    (∀ s, initLS host args encoding user hasCallback = .ok s →
      s.process = none ∧ s.start_failed = false ∧ s.has_started = false) := by
  obtain ⟨os, cu⟩ := host
  cases os <;> rcases user with _ | (u | u) <;> cases args <;>
    simp [initLS, SessionUser.isPosixUser, SessionUser.isWindowsUser]

/-- Witness for C8 at a concrete mismatched input: a Windows principal on a
POSIX host is rejected at construction. -/
theorem C8_construction_error_iff_witness :
    initLS ⟨.posix, "me"⟩ ["prog"] "utf-8" (some (.windowsUser "alice"))
        false = .error .valueError :=
  (C8_construction_error_iff ⟨.posix, "me"⟩ ["prog"] "utf-8"
    (some (.windowsUser "alice")) false).1.mpr
    (Or.inr ⟨.windowsUser "alice", rfl, Or.inl ⟨rfl, rfl⟩⟩)

/-- C4: `notify()` and `terminate()` are no-ops when no process was ever
spawned (`process = none`) or when the child has already exited: no events
at all (hence no signal dispatch and no relay invocation) and no
exception. -/
theorem C4_notify_terminate_noop (host : Host) (s : State) (v : ChildView)
    (relayExit : Int) (h : s.process = none ∨ v.exited = true) :
    (notifyFn host s v relayExit).2.1 = [] ∧
    (notifyFn host s v relayExit).2.2 = none ∧
    (terminateFn host s v relayExit).2.1 = [] ∧
    (terminateFn host s v relayExit).2.2 = none := by
  rcases h with h | h
  · simp [notifyFn, terminateFn, h]
  · rcases hp : s.process with _ | p
    · simp [notifyFn, terminateFn, hp]
    · rcases hrc : p.returncode with _ | rc <;>
        simp [notifyFn, terminateFn, hp, Popen.pollUpd, hrc, h]

/-- Witness for C4: before `run()`, both calls on a fresh POSIX handle do
nothing and raise nothing. -/
theorem C4_notify_terminate_noop_witness :
    (notifyFn ⟨.posix, "me"⟩ (freshState ["prog"] none false) ⟨false, 0⟩
        0).2.1 = [] ∧
    (notifyFn ⟨.posix, "me"⟩ (freshState ["prog"] none false) ⟨false, 0⟩
        0).2.2 = none ∧
    (terminateFn ⟨.posix, "me"⟩ (freshState ["prog"] none false) ⟨false, 0⟩
        0).2.1 = [] ∧
    (terminateFn ⟨.posix, "me"⟩ (freshState ["prog"] none false) ⟨false, 0⟩
        0).2.2 = none :=
  C4_notify_terminate_noop ⟨.posix, "me"⟩ (freshState ["prog"] none false)
    ⟨false, 0⟩ 0 (Or.inl rfl)

/-- C5: on POSIX, with a live tracked process, `notify()` performs exactly
the relay call for signal `"term"` with `signal_subprocesses=False` (the
tracked process only), and `terminate()` the relay call for `"kill"` with
`signal_subprocesses=True`; the built command vectors carry exactly those
positional parameters. -/
theorem C5_notify_term_terminate_kill (host : Host) (s : State) (p : Popen)
    (v : ChildView) (relayExit : Int) (hos : host.os = .posix)
    (hp : s.process = some p) (hrc : p.returncode = none)
    (hlive : v.exited = false) :
    (notifyFn host s v relayExit).2.1 =
      posixSignalEvents s.user host.currentUser p.pid "term" false
        relayExit ∧
    Event.relayRun (posixSignalCmd s.user host.currentUser p.pid "term"
        false) ∈ (notifyFn host s v relayExit).2.1 ∧
    (terminateFn host s v relayExit).2.1 =
      posixSignalEvents s.user host.currentUser p.pid "kill" true
        relayExit ∧
    Event.relayRun (posixSignalCmd s.user host.currentUser p.pid "kill"
        true) ∈ (terminateFn host s v relayExit).2.1 ∧
    posixSignalCmd s.user host.currentUser p.pid "term" false =
      sudoCmd s.user host.currentUser ++ [POSIX_SIGNAL_SUBPROC_SCRIPT,
        toString p.pid, "term", pyStrBool s.user.isSome, "False"] ∧
    posixSignalCmd s.user host.currentUser p.pid "kill" true =
      sudoCmd s.user host.currentUser ++ [POSIX_SIGNAL_SUBPROC_SCRIPT,
        toString p.pid, "kill", pyStrBool s.user.isSome, "True"] := by
  refine ⟨?_, ?_, ?_, ?_, ?_, ?_⟩ <;>
    first
      | simp [notifyFn, terminateFn, hp, Popen.pollUpd, hrc, hlive, hos,
          posixSignalEvents]
      | (rcases s.user with _ | u <;>
          simp [posixSignalCmd, posixSignalCmdParts, sudoCmd, pyStrBool])

/-- Witness for C5: an un-elevated live process with pid 7. -/
theorem C5_notify_term_terminate_kill_witness :
    (notifyFn ⟨.posix, "me"⟩
        { freshState ["prog"] none false with process := some ⟨7, none⟩ }
        ⟨false, 0⟩ 0).2.1 =
      posixSignalEvents none "me" 7 "term" false 0 ∧
    Event.relayRun (posixSignalCmd none "me" 7 "term" false) ∈
      (notifyFn ⟨.posix, "me"⟩
        { freshState ["prog"] none false with process := some ⟨7, none⟩ }
        ⟨false, 0⟩ 0).2.1 ∧
    (terminateFn ⟨.posix, "me"⟩
        { freshState ["prog"] none false with process := some ⟨7, none⟩ }
        ⟨false, 0⟩ 0).2.1 =
      posixSignalEvents none "me" 7 "kill" true 0 ∧
    Event.relayRun (posixSignalCmd none "me" 7 "kill" true) ∈
      (terminateFn ⟨.posix, "me"⟩
        { freshState ["prog"] none false with process := some ⟨7, none⟩ }
        ⟨false, 0⟩ 0).2.1 ∧
    posixSignalCmd none "me" 7 "term" false =
      sudoCmd none "me" ++ [POSIX_SIGNAL_SUBPROC_SCRIPT, toString 7, "term",
        pyStrBool (none : Option SessionUser).isSome, "False"] ∧
    posixSignalCmd none "me" 7 "kill" true =
      sudoCmd none "me" ++ [POSIX_SIGNAL_SUBPROC_SCRIPT, toString 7, "kill",
        pyStrBool (none : Option SessionUser).isSome, "True"] :=
  C5_notify_term_terminate_kill ⟨.posix, "me"⟩
    { freshState ["prog"] none false with process := some ⟨7, none⟩ }
    ⟨7, none⟩ ⟨false, 0⟩ 0 rfl rfl rfl rfl

/-- C6: on POSIX, `terminate()` on a live process dispatches the relay; the
built command carries the `sudo` elevation prefix for the configured
principal exactly when that principal differs from the invoking account, and
is invoked directly (the relay script is the first element) when no
principal is configured or it equals the invoking account. -/
theorem C6_terminate_elevation (host : Host) (s : State) (p : Popen)
    (v : ChildView) (relayExit : Int) (hos : host.os = .posix)
    (hp : s.process = some p) (hrc : p.returncode = none)
    (hlive : v.exited = false) :
    Event.relayRun (posixSignalCmd s.user host.currentUser p.pid "kill"
        true) ∈ (terminateFn host s v relayExit).2.1 ∧
    (∀ u, s.user = some u → u.name ≠ host.currentUser →
      posixSignalCmd s.user host.currentUser p.pid "kill" true =
        ["sudo", "-u", u.name, "-i"] ++ [POSIX_SIGNAL_SUBPROC_SCRIPT,
          toString p.pid, "kill", "True", "True"]) ∧
    (∀ u, s.user = some u → u.name = host.currentUser →
      posixSignalCmd s.user host.currentUser p.pid "kill" true =
        [POSIX_SIGNAL_SUBPROC_SCRIPT, toString p.pid, "kill", "True",
          "True"]) ∧
    (s.user = none →
      posixSignalCmd s.user host.currentUser p.pid "kill" true =
        [POSIX_SIGNAL_SUBPROC_SCRIPT, toString p.pid, "kill", "False",
          "True"]) := by
  refine ⟨?_, ?_, ?_, ?_⟩
  · simp [terminateFn, hp, Popen.pollUpd, hrc, hlive, hos,
      posixSignalEvents]
  · intro u hu hne
    simp [posixSignalCmd, posixSignalCmdParts, hu, hne, pyStrBool]
  · intro u hu heq
    simp [posixSignalCmd, posixSignalCmdParts, hu, heq, pyStrBool]
  · intro hu
    simp [posixSignalCmd, posixSignalCmdParts, hu, pyStrBool]

/-- Witness for C6: principal `"worker"` differs from invoking account
`"me"`, so the kill relay command is `sudo`-prefixed. -/
theorem C6_terminate_elevation_witness :
    Event.relayRun (posixSignalCmd (some (.posixUser "worker")) "me" 7
        "kill" true) ∈
      (terminateFn ⟨.posix, "me"⟩
        { freshState ["prog"] (some (.posixUser "worker")) false with
            process := some ⟨7, none⟩ } ⟨false, 0⟩ 0).2.1 ∧
    posixSignalCmd (some (.posixUser "worker")) "me" 7 "kill" true =
      ["sudo", "-u", "worker", "-i"] ++ [POSIX_SIGNAL_SUBPROC_SCRIPT,
        toString 7, "kill", "True", "True"] := by
  have h := C6_terminate_elevation ⟨.posix, "me"⟩
    { freshState ["prog"] (some (.posixUser "worker")) false with
        process := some ⟨7, none⟩ } ⟨7, none⟩ ⟨false, 0⟩ 0 rfl rfl rfl rfl
  exact ⟨h.1, h.2.1 (.posixUser "worker") rfl (by decide)⟩

/-- C9 (implicit): the relay's escalate-to-child-principal parameter
(`signal_child`, the fourth positional argument) is `"True"` exactly when a
principal is configured, even when it equals the invoking account — in that
case only the `sudo` prefix is omitted. -/
theorem C9_escalation_flag_iff_principal (user : Option SessionUser)
    (currentUser : String) (pid : Nat) (signal : String)
    (signal_subprocesses : Bool) :
    ((posixSignalCmdParts user currentUser).2 = true ↔
      user.isSome = true) ∧
    posixSignalCmd user currentUser pid signal signal_subprocesses =
      (posixSignalCmdParts user currentUser).1 ++
        [POSIX_SIGNAL_SUBPROC_SCRIPT, toString pid, signal,
          pyStrBool user.isSome, pyStrBool signal_subprocesses] ∧
    (∀ u, user = some u → u.name = currentUser →
      posixSignalCmd user currentUser pid signal signal_subprocesses =
        [POSIX_SIGNAL_SUBPROC_SCRIPT, toString pid, signal, "True",
          pyStrBool signal_subprocesses]) := by
  refine ⟨?_, ?_, ?_⟩
  · rcases user with _ | u <;> simp [posixSignalCmdParts]
  · rcases user with _ | u <;>
      simp [posixSignalCmd, posixSignalCmdParts]
  · intro u hu heq
    simp [posixSignalCmd, posixSignalCmdParts, hu, heq, pyStrBool]

/-- Witness for C9: principal equal to the invoking account — no `sudo`
prefix, yet `signal_child` is `"True"`. -/
theorem C9_escalation_flag_iff_principal_witness :
    posixSignalCmd (some (.posixUser "me")) "me" 7 "term" false =
      [POSIX_SIGNAL_SUBPROC_SCRIPT, toString 7, "term", "True", "False"] :=
  (C9_escalation_flag_iff_principal (some (.posixUser "me")) "me" 7 "term"
    false).2.2 (.posixUser "me") rfl rfl

/-- Counterexample to C1 as stated: after a first `run()` whose spawn failed
(`OSError`, e.g. executable not found), the handle's process field is still
unset, so a second `run()` does not raise the re-entrancy `RuntimeError` —
its first statement sends it to the spawn attempt instead. -/
theorem C1_second_run_after_failed_start_not_reentrant :
    let c1 := exec (List.replicate 6 .runStep)
      (startConfig ⟨.posix, "me"⟩ (freshState ["nosuch"] none false)
        .osError 0)
    c1.pc = .finished ∧
    c1.st.failed_to_start = true ∧
    c1.st.process = none ∧
    (runStep { c1 with pc := .checkReentry, spawnOutcome := .ok 7 [] 0 }).pc
      = .spawn ∧
    (runStep { c1 with pc := .checkReentry, spawnOutcome := .ok 7 [] 0 }).pc
      ≠ .raised .runtimeError := by
  decide

/-- C1 amended: a second invocation of `run()` raises the re-entrancy
`RuntimeError` if and only if the first invocation actually spawned a
process (the process handle is set); after a first invocation that failed
to start, the handle is still unset and `run()` proceeds to attempt the
spawn again instead of raising. -/
theorem C1_amended_reentry_iff_spawned (c : Config)
    (h : c.pc = .checkReentry) :
    ((runStep c).pc = .raised .runtimeError ↔ c.st.process ≠ none) ∧
    (c.st.process = none → (runStep c).pc = .spawn) := by
  rcases hp : c.st.process with _ | p <;> simp [runStep, h, hp]

/-- Witness for the amended C1: a handle whose first `run()` spawned (and
reaped) a process does raise on re-invocation. -/
theorem C1_amended_reentry_iff_spawned_witness :
    ((runStep (startConfig ⟨.posix, "me"⟩
        { freshState ["prog"] none false with process := some ⟨7, some 0⟩ }
        .osError 0)).pc = .raised .runtimeError ↔
      (startConfig ⟨.posix, "me"⟩
        { freshState ["prog"] none false with process := some ⟨7, some 0⟩ }
        .osError 0).st.process ≠ none) ∧
    ((startConfig ⟨.posix, "me"⟩
        { freshState ["prog"] none false with process := some ⟨7, some 0⟩ }
        .osError 0).st.process = none →
      (runStep (startConfig ⟨.posix, "me"⟩
        { freshState ["prog"] none false with process := some ⟨7, some 0⟩ }
        .osError 0)).pc = .spawn) :=
  C1_amended_reentry_iff_spawned _ rfl

/-- Counterexample to C2 as stated: on the spawn-failure path there is a
reachable instant — right after `self._has_started.set()` (three atomic
statements into `run()`) — at which the start-latch is released but
`failed_to_start` still reads `false`; the flag only becomes true at the
next statement, and `run()` then finishes normally. -/
theorem C2_latch_released_before_flag :
    let c0 := startConfig ⟨.posix, "me"⟩ (freshState ["nosuch"] none true)
      .osError 0
    (exec (List.replicate 3 .runStep) c0).st.has_started = true ∧
    (exec (List.replicate 3 .runStep) c0).st.failed_to_start = false ∧
    (exec (List.replicate 6 .runStep) c0).pc = .finished ∧
    (exec (List.replicate 6 .runStep) c0).st.failed_to_start = true := by
  decide

/-- C2 amended: on spawn failure `run()` releases the start-latch first,
then sets `start_failed`, then invokes the callback if present and returns
normally without raising; `failed_to_start` is true by the time the
callback runs and `run()` returns, but immediately after the latch is
released the flag may still read `false`. -/
theorem C2_amended_failure_path_order (host : Host) (s : State)
    (relayExit : Int) (h : s.process = none) :
    let c0 := startConfig host s .osError relayExit
    (exec (List.replicate 3 .runStep) c0).st.has_started = true ∧
    (exec (List.replicate 3 .runStep) c0).st.start_failed =
      s.start_failed ∧
    (exec (List.replicate 6 .runStep) c0).pc = .finished ∧
    (exec (List.replicate 6 .runStep) c0).st.start_failed = true ∧
    (exec (List.replicate 6 .runStep) c0).st.has_started = true ∧
    (exec (List.replicate 6 .runStep) c0).events =
      [.logRunningCommand (cmdForLogger host s.args s.user),
        .logSpawnFailed] ++
      (if s.hasCallback then [.callbackInvoked] else []) := by
  simp [exec, List.replicate, doAction, runStep, startConfig, h]

/-- Witness for the amended C2 at a concrete spawn-failure scenario. -/
theorem C2_amended_failure_path_order_witness :
    let c0 := startConfig ⟨.posix, "me"⟩ (freshState ["nosuch"] none true)
      .osError 0
    (exec (List.replicate 3 .runStep) c0).st.has_started = true ∧
    (exec (List.replicate 3 .runStep) c0).st.start_failed =
      (freshState ["nosuch"] none true).start_failed ∧
    (exec (List.replicate 6 .runStep) c0).pc = .finished ∧
    (exec (List.replicate 6 .runStep) c0).st.start_failed = true ∧
    (exec (List.replicate 6 .runStep) c0).st.has_started = true ∧
    (exec (List.replicate 6 .runStep) c0).events =
      [.logRunningCommand (cmdForLogger ⟨.posix, "me"⟩
          (freshState ["nosuch"] none true).args
          (freshState ["nosuch"] none true).user),
        .logSpawnFailed] ++
      (if (freshState ["nosuch"] none true).hasCallback then
        [.callbackInvoked] else []) :=
  C2_amended_failure_path_order ⟨.posix, "me"⟩
    (freshState ["nosuch"] none true) 0 rfl

/-- C3 fails on the code (the code contradicts the comment in the
`exit_code` accessor): a concurrent `notify()` after the child exits but
before `run()` has drained the output calls `Popen.poll()`, which caches
`returncode`; `exit_code` then returns `0` while `run()` is still inside
the read loop with unread output — observed "exited but still
streaming". -/
theorem C3_exit_code_visible_while_streaming :
    pollRaceConfig.st.exit_code = some 0 ∧
    pollRaceConfig.pc = .readLoop ∧
    pollRaceConfig.child = some ⟨7, ['b', '\n'], true, 0⟩ := by
  decide

/-- C10: a non-`OSError` exception at the spawn point propagates out of
`run()` (terminal `raised` state reached before the latch statement):
however many further steps the `run()` thread is given, the start-latch is
never released, `start_failed` stays false, and no callback (indeed no
event at all) happens; whereas an `OSError` at the same point is converted
into the start-failed state and `run()` returns normally. -/
theorem C10_non_oserror_propagates (host : Host) (s : State)
    (relayExit : Int) (h : s.process = none) (hs : s.has_started = false)
    (hf : s.start_failed = false) :
    let cOther := exec (List.replicate 2 .runStep)
      (startConfig host s .otherExc relayExit)
    cOther.pc = .raised .otherError ∧
    (∀ n, (exec (List.replicate n .runStep) cOther).st.has_started = false ∧
      (exec (List.replicate n .runStep) cOther).st.start_failed = false ∧
      (exec (List.replicate n .runStep) cOther).events = []) ∧
    ((exec (List.replicate 6 .runStep)
        (startConfig host s .osError relayExit)).pc = .finished ∧
      (exec (List.replicate 6 .runStep)
        (startConfig host s .osError relayExit)).st.start_failed = true ∧
      (exec (List.replicate 6 .runStep)
        (startConfig host s .osError relayExit)).st.has_started = true) := by
  intro cOther
  have hC : cOther =
      { startConfig host s .otherExc relayExit with
          pc := .raised .otherError } := by
    simp [cOther, exec, List.replicate, doAction, runStep, startConfig, h]
  refine ⟨?_, ?_, ?_⟩
  · rw [hC]
  · intro n
    rw [exec_runSteps_raised n cOther .otherError (by rw [hC])]
    rw [hC]
    exact ⟨hs, hf, rfl⟩
  · simp [exec, List.replicate, doAction, runStep, startConfig, h]

/-- Witness for C10 at a concrete handle. -/
theorem C10_non_oserror_propagates_witness :
    let cOther := exec (List.replicate 2 .runStep)
      (startConfig ⟨.posix, "me"⟩ (freshState ["prog"] none true) .otherExc
        0)
    cOther.pc = .raised .otherError ∧
    (∀ n, (exec (List.replicate n .runStep) cOther).st.has_started = false ∧
      (exec (List.replicate n .runStep) cOther).st.start_failed = false ∧
      (exec (List.replicate n .runStep) cOther).events = []) ∧
    ((exec (List.replicate 6 .runStep)
        (startConfig ⟨.posix, "me"⟩ (freshState ["prog"] none true)
          .osError 0)).pc = .finished ∧
      (exec (List.replicate 6 .runStep)
        (startConfig ⟨.posix, "me"⟩ (freshState ["prog"] none true)
          .osError 0)).st.start_failed = true ∧
      (exec (List.replicate 6 .runStep)
        (startConfig ⟨.posix, "me"⟩ (freshState ["prog"] none true)
          .osError 0)).st.has_started = true) :=
  C10_non_oserror_propagates ⟨.posix, "me"⟩ (freshState ["prog"] none true)
    0 rfl rfl rfl

/-- C7: on a successful spawn whose child produces output `cs` and exits,
`run()` drives the read loop to completion: each read is one
`readline(LOG_LINE_MAX_LENGTH)` chunk (nonempty and capped at 64000
characters — a capped read becomes one logical line even without a
trailing terminator), each chunk is forwarded to the log sink at
informational severity with trailing newline/carriage-return characters
stripped, nothing is lost (the chunks concatenate back to `cs`), and the
loop ends exactly at the empty-read sentinel, after which the child is
reaped and `exit_code` is set. -/
theorem C7_output_stream_loop (host : Host) (s : State) (pid : Nat)
    (cs : List Char) (status : Int) (relayExit : Int)
    (h : s.process = none) :
    let c0 := startConfig host s (.ok pid cs status) relayExit
    let cF := exec (((List.replicate 5 .runStep ++ [.childExit]) ++
      List.replicate (readChunks cs).length .runStep) ++
      List.replicate 3 .runStep) c0
    cF.pc = .finished ∧
    cF.st.exit_code = some status ∧
    cF.events =
      [.logRunningCommand (cmdForLogger host s.args s.user),
        .logStarted ("Command started as pid: " ++ toString pid)] ++
      (readChunks cs).map
        (fun l => Event.logInfoLine (String.mk (rstripNL l))) ++
      (if s.hasCallback then [.callbackInvoked] else []) ∧
    (∀ l ∈ readChunks cs, l ≠ [] ∧ l.length ≤ LOG_LINE_MAX_LENGTH) ∧
    (readChunks cs).foldr (· ++ ·) [] = cs := by
  intro c0 cF
  have h5 : exec (List.replicate 5 .runStep ++ [.childExit]) c0 =
      { host := host,
        st := { s with process := some ⟨pid, none⟩, has_started := true },
        child := some ⟨pid, cs, true, status⟩,
        spawnOutcome := .ok pid cs status, relayExit := relayExit,
        pc := .readLoop,
        events := [.logRunningCommand (cmdForLogger host s.args s.user),
          .logStarted ("Command started as pid: " ++ toString pid)] } := by
    simp [c0, exec, List.replicate, doAction, runStep, startConfig, h]
  have hD := drainLoop cs
    { host := host,
      st := { s with process := some ⟨pid, none⟩, has_started := true },
      child := some ⟨pid, cs, true, status⟩,
      spawnOutcome := .ok pid cs status, relayExit := relayExit,
      pc := .readLoop,
      events := [.logRunningCommand (cmdForLogger host s.args s.user),
        .logStarted ("Command started as pid: " ++ toString pid)] }
    ⟨pid, cs, true, status⟩ rfl rfl rfl rfl
  have hF : cF = exec (List.replicate 3 .runStep)
      (exec (List.replicate (readChunks cs).length .runStep)
        (exec (List.replicate 5 .runStep ++ [.childExit]) c0)) := by
    rw [show cF = exec (((List.replicate 5 .runStep ++ [.childExit]) ++
      List.replicate (readChunks cs).length .runStep) ++
      List.replicate 3 .runStep) c0 from rfl]
    rw [exec_append, exec_append]
  rw [hF, h5, hD]
  refine ⟨?_, ?_, ?_, readChunks_mem cs, readChunks_join cs⟩ <;>
    simp [exec, List.replicate, doAction, runStep, State.exit_code,
      List.append_assoc]

/-- Witness for C7: child output `"hi\nx"` (final chunk has no trailing
newline) with exit status 3. -/
theorem C7_output_stream_loop_witness :
    let c0 := startConfig ⟨.posix, "me"⟩ (freshState ["prog"] none true)
      (.ok 7 ['h', 'i', '\n', 'x'] 3) 0
    let cF := exec (((List.replicate 5 .runStep ++ [.childExit]) ++
      List.replicate (readChunks ['h', 'i', '\n', 'x']).length .runStep) ++
      List.replicate 3 .runStep) c0
    cF.pc = .finished ∧
    cF.st.exit_code = some 3 ∧
    cF.events =
      [.logRunningCommand (cmdForLogger ⟨.posix, "me"⟩
          (freshState ["prog"] none true).args
          (freshState ["prog"] none true).user),
        .logStarted ("Command started as pid: " ++ toString 7)] ++
      (readChunks ['h', 'i', '\n', 'x']).map
        (fun l => Event.logInfoLine (String.mk (rstripNL l))) ++
      (if (freshState ["prog"] none true).hasCallback then
        [.callbackInvoked] else []) ∧
    (∀ l ∈ readChunks ['h', 'i', '\n', 'x'],
      l ≠ [] ∧ l.length ≤ LOG_LINE_MAX_LENGTH) ∧
    (readChunks ['h', 'i', '\n', 'x']).foldr (· ++ ·) [] =
      ['h', 'i', '\n', 'x'] :=
  C7_output_stream_loop ⟨.posix, "me"⟩ (freshState ["prog"] none true) 7
    ['h', 'i', '\n', 'x'] 3 0 rfl

end OpenJD
